import Mathlib

/-!
# Verification of the `query` command of the iRODS command line client

Shallow embedding of `src/commands/query/main.cpp`, followed by theorems about it.

* `Json` models the `nlohmann::json` values the command handles, with the few
  library operations the command calls (`contains`, `at`, `operator[]=`, `update`,
  range-for iteration).
* `stoi`, `progress_display` and `print_progress` model the progress reporter.
* `print_formatted`, `response_handler`, `execute` model the command itself.

Collaborators that live outside the repository (the `boost::program_options` parser, the
`boost::format` formatter and the `irods::experimental::api::client` transport) are
parameters of the model.
-/

namespace irods.cli

/-! ## JSON values -/

/-- Values of `nlohmann::json`. An object is the list of its members (a `std::map`, so
kept in key order by `Json.set`); `number_float` carries the IEEE-754 bit pattern, which
the command never inspects. -/
inductive Json where
  | null
  | boolean (b : Bool)
  | number_integer (i : Int)
  | number_unsigned (n : Nat)
  | number_float (bits : Nat)
  | string (s : String)
  | array (xs : List Json)
  | object (members : List (String × Json))

/-- Exceptions that can leave the modelled code. -/
inductive Exn where
  /-- Exception `nlohmann::json::type_error` with its numeric id. -/
  | json_type_error (id : Nat)
  /-- Exception `boost::io::format_error` (and subclasses), carrying its `what()` text. -/
  | format_error (what : String)
  /-- Any other exception (connection and transport failures). -/
  | other (what : String)
  deriving DecidableEq, Repr

/-- Decidable equality of `Except` values, so that closed facts about results evaluate. -/
instance instDecidableEqExcept {ε α : Type} [DecidableEq ε] [DecidableEq α] :
    DecidableEq (Except ε α)
  | .ok a, .ok b => if h : a = b then isTrue (by rw [h]) else isFalse (by intro h'; cases h'; exact h rfl)
  | .error a, .error b =>
    if h : a = b then isTrue (by rw [h]) else isFalse (by intro h'; cases h'; exact h rfl)
  | .ok _, .error _ => isFalse (by intro h; cases h)
  | .error _, .ok _ => isFalse (by intro h; cases h)

/-- Lexicographic order on character sequences by code point, which is the order
`std::string::operator<` gives on their UTF-8 encodings. -/
def chars_lt : List Char → List Char → Bool
  | [], [] => false
  | [], _ :: _ => true
  | _ :: _, [] => false
  | a :: as, b :: bs =>
    if a.toNat < b.toNat then true
    else if b.toNat < a.toNat then false
    else chars_lt as bs

/-- Key order of `std::map<std::string, json>`. -/
def key_lt (a b : String) : Bool :=
  chars_lt a.toList b.toList

/-- Member lookup in a `std::map<std::string, json>`. -/
def lookup (k : String) : List (String × Json) → Option Json
  | [] => none
  | (k', v) :: rest => if k' = k then some v else lookup k rest

/-- The keys of an object, in storage order. -/
def keys (m : List (String × Json)) : List String :=
  m.map Prod.fst

/-- Member assignment `m[k] = v` on a `std::map`: replaces the value of an existing key,
otherwise inserts the new member at its place in key order. -/
def assign (k : String) (v : Json) : List (String × Json) → List (String × Json)
  | [] => [(k, v)]
  | (k', v') :: rest =>
    if k' = k then (k, v) :: rest
    else if key_lt k k' then (k, v) :: (k', v') :: rest
    else (k', v') :: assign k v rest

namespace Json

/-- Method `json::contains(key)`: true only for an object that has the key. -/
def contains (j : Json) (k : String) : Bool :=
  match j with
  | object m => (lookup k m).isSome
  | _ => false

/-- Method `json::at(key)`: `type_error` 304 on a non-object, `out_of_range` 403
(reported here as `Exn.other`) on a missing key. -/
def get_at (j : Json) (k : String) : Except Exn Json :=
  match j with
  | object m =>
    match lookup k m with
    | some v => .ok v
    | none => .error (.other "out_of_range.403")
  | _ => .error (.json_type_error 304)

/-- Statement `j[key] = v`: a null value first becomes an empty object; `type_error`
305 on any other non-object. -/
def set (j : Json) (k : String) (v : Json) : Except Exn Json :=
  match j with
  | object m => .ok (object (assign k v m))
  | null => .ok (object [(k, v)])
  | _ => .error (.json_type_error 305)

/-- The sequence a range-for visits: the elements of an array, the member values of an
object, nothing for null, and the value itself for any other primitive. -/
def items (j : Json) : List Json :=
  match j with
  | array xs => xs
  | object m => m.map Prod.snd
  | null => []
  | v => [v]

/-- Method `json::update(j)`: `type_error` 312 unless both sides are objects (a null
receiver counts as the empty object); every member of `j` is assigned into the
receiver, in order. -/
def update (self j : Json) : Except Exn Json :=
  match self, j with
  | object m, object n => .ok (object (n.foldl (fun acc kv => assign kv.1 kv.2 acc) m))
  | null, object n => .ok (object (n.foldl (fun acc kv => assign kv.1 kv.2 acc) []))
  | _, _ => .error (.json_type_error 312)

end Json

/-! ## The progress reporter -/

/-- Failure modes of `std::stoi`. -/
inductive stoi_error where
  | invalid_argument
  | out_of_range
  deriving DecidableEq, Repr

/-- Predicate `isspace` in the "C" locale. -/
def isspace (c : Char) : Bool :=
  c = ' ' || c = '\t' || c = '\n' || c = '\x0b' || c = '\x0c' || c = '\r'

/-- Value of a run of decimal digits, most significant first. -/
def digits_value (ds : List Char) : Nat :=
  ds.foldl (fun acc d => 10 * acc + (d.toNat - '0'.toNat)) 0

/-- Bounds of `int`. -/
def INT_MIN : Int := -2147483648

/-- Upper bound of `int`. -/
def INT_MAX : Int := 2147483647

/-- The conversion once `strtol` has isolated the sign and the run of digits: no digit
gives `invalid_argument`, a value that does not fit `int` gives `out_of_range`. -/
def stoi_convert (negative : Bool) (ds : List Char) : Except stoi_error Int :=
  if ds.isEmpty then .error .invalid_argument
  else
    let v : Int := if negative then -(digits_value ds : Int) else (digits_value ds : Int)
    if INT_MIN ≤ v ∧ v ≤ INT_MAX then .ok v else .error .out_of_range

/-- Call `std::stoi(p.c_str(), nullptr, 10)`: the text up to the first NUL is scanned as
`strtol` does (leading white space, one optional sign, then the longest run of decimal
digits; whatever follows is ignored). -/
def stoi (p : String) : Except stoi_error Int :=
  match (p.toList.takeWhile (fun c => c ≠ '\x00')).dropWhile isspace with
  | '-' :: rest => stoi_convert true (rest.takeWhile Char.isDigit)
  | '+' :: rest => stoi_convert false (rest.takeWhile Char.isDigit)
  | cs => stoi_convert false (cs.takeWhile Char.isDigit)

/-- Number of values of `unsigned long` (64 bits). -/
def ULONG_SIZE : Nat := 18446744073709551616

/-- State of `boost::progress_display` that `print_progress` reads and writes: the
running `_count` (an `unsigned long`). The rendering of the tic marks is not modelled. -/
structure progress_display where
  count : Nat
  deriving DecidableEq, Repr

/-- Operator `++prog`: `_count += 1` in `unsigned long` arithmetic. -/
def progress_display.incr (prog : progress_display) : progress_display :=
  ⟨(prog.count + 1) % ULONG_SIZE⟩

/-- Conversion of the `int` `x` to `unsigned long` for the comparison
`prog.count() != x`. -/
def to_unsigned_long (x : Int) : Nat :=
  (x % (ULONG_SIZE : Int)).toNat

/-- Number of increments that take an `unsigned long` counter from `c` to `t`, counting
through the wrap-around at `2^64` when `t` is below `c`. -/
def distance (c t : Nat) : Nat :=
  (t + ULONG_SIZE - c) % ULONG_SIZE

/-- The loop `while(prog.count() != x) { ++prog; }`, run for at most `fuel` iterations.
Returns the final display and the number of increments performed, or `none` when the
loop is still running after `fuel` iterations. -/
def advance : Nat → Int → progress_display → Option (progress_display × Nat)
  | 0, x, prog =>
    if prog.count ≠ to_unsigned_long x then none else some (prog, 0)
  | fuel + 1, x, prog =>
    if prog.count ≠ to_unsigned_long x then
      (advance fuel x prog.incr).map (fun r => (r.1, r.2 + 1))
    else some (prog, 0)

/-- Function `print_progress`, with the function-local static display passed in and
out. A failed `std::stoi` is swallowed by `catch(...)`: the display is returned as it
was, after zero increments. -/
def print_progress (fuel : Nat) (p : String) (prog : progress_display) :
    Option (progress_display × Nat) :=
  match stoi p with
  | .ok x => advance fuel x prog
  | .error _ => some (prog, 0)

/-! ## Output and exceptions -/

/-- One write to `std::cout`: a piece of text, or a JSON value serialised by
`dump(indent)` (`operator<<` on a JSON value is `dump(-1)`). -/
inductive Out where
  | text (s : String)
  | dump (indent : Int) (j : Json)

/-- Outcome of a piece of code that writes to `std::cout` and then either yields a value
or throws. -/
structure Run (α : Type) where
  out : List Out
  res : Except Exn α

/-! ## The result formatter -/

/-- The operations of `boost::format` that `print_formatted` calls. The library is not
part of the repository, so it is a parameter: `construct` is `boost::format
formatter(_fmt)`, `feed` is `formatter % x`, `render` is `std::cout << formatter`.
Each may throw a `boost::io::format_error`, given here by its `what()` text. -/
structure format_library (F : Type) where
  construct : String → Except String F
  feed : F → Json → Except String F
  render : F → Except String String

/-- The loop `for(auto x : _arr) { formatter % x; }`, stopping at the first throw. -/
def feed_all {F : Type} (B : format_library F) : F → List Json → Except String F
  | formatter, [] => .ok formatter
  | formatter, x :: xs =>
    match B.feed formatter x with
    | .ok formatter' => feed_all B formatter' xs
    | .error e => .error e

/-- Method `rm::print_formatted`. The formatter is constructed before the `try` block,
so a throw of the constructor leaves the function; a throw while feeding or rendering
is caught and its `what()` is written instead of the row. -/
def print_formatted {F : Type} (B : format_library F) (_fmt : String) (_arr : Json) :
    Run Unit :=
  match B.construct _fmt with
  | .error e => ⟨[], .error (.format_error e)⟩
  | .ok formatter =>
    match feed_all B formatter _arr.items with
    | .error e => ⟨[.text e, .text "\n"], .ok ()⟩
    | .ok fed =>
      match B.render fed with
      | .error e => ⟨[.text e, .text "\n"], .ok ()⟩
      | .ok line => ⟨[.text line, .text "\n"], .ok ()⟩

/-! ## The per-round response handler -/

/-- The loop `for(auto& arr : rep.at("results")) { print_formatted(format, arr); }`: a
throw of `print_formatted` ends the loop and propagates. -/
def print_rows {F : Type} (B : format_library F) (format : String) : List Json → Run Unit
  | [] => ⟨[], .ok ()⟩
  | arr :: rest =>
    let r := print_formatted B format arr
    match r.res with
    | .error e => ⟨r.out, .error e⟩
    | .ok () =>
      let r' := print_rows B format rest
      ⟨r.out ++ r'.out, r'.res⟩

/-- The `if(rep.contains("results")) { ... }` statement of the response handler. -/
def print_results {F : Type} (B : format_library F) (format : String) (rep : Json) :
    Run Unit :=
  if rep.contains "results" then
    match rep.get_at "results" with
    | .error e => ⟨[], .error e⟩
    | .ok results =>
      if format = "" then ⟨[.dump 4 results, .text "\n"], .ok ()⟩
      else print_rows B format results.items
  else ⟨[], .ok ()⟩

/-- The lambda `[&](const json& req, const json& rep) -> json` that `execute` hands to
the transport: print the results of the round, then return `req` updated with `rep`. -/
def response_handler {F : Type} (B : format_library F) (format : String) (req rep : Json) :
    Run Json :=
  let printed := print_results B format rep
  match printed.res with
  | .error e => ⟨printed.out, .error e⟩
  | .ok () => ⟨printed.out, Json.update req rep⟩

/-! ## The command -/

/-- What `execute` does that is visible outside the process. -/
inductive Event where
  | cerr (s : String)
  | cout (o : Out)
  /-- The connection pool is created and `get_connection()` is called. -/
  | get_connection
  /-- The transport is called with the initial request `req` for `endpoint`. -/
  | invoke (req : Json) (endpoint : String)

/-- The values `po::store`/`po::notify` leave behind (lines 113-115): the positional
`query` if one was given, and the variables bound to the options, which keep their
initial values (`""`, `0`, `false`) when the option is absent. -/
structure parsed_options where
  query : Option String
  format : String
  limit : Int
  offset : Int
  page_size : Int
  progress_flag : Bool

/-- What the surroundings answer: the status `getRodsEnv` returns and whether creating
the pool and taking a connection succeeds or throws. -/
structure environment where
  getRodsEnv : Int
  connect : Except Exn Unit

/-- The type of the progress callback. -/
abbrev progress_callback := Nat → String → progress_display → Option (progress_display × Nat)

/-- What a call of the transport produces: the events it caused (among them the output
of the callbacks it invoked), the final response or the exception it threw, and the
value `exit_flag` has when `execute` reads it afterwards. -/
structure transport_result where
  events : List Event
  rep : Except Exn Json
  exit_flag : Bool

/-- The transport `irods::experimental::api::client`, which is not part of the
repository: any function of the progress callback, the response handler, the initial
request and the endpoint name. -/
abbrev transport := progress_callback → (Json → Json → Run Json) → Json → String → transport_result

/-- The callback chosen on line 136: `print_progress` when `--progress` was given,
otherwise a lambda that does nothing. -/
def progress_handler (progress_flag : Bool) : progress_callback :=
  if progress_flag then print_progress else fun _ _ prog => some (prog, 0)

/-- Construction of the initial request (lines 138-143). -/
def initial_request (progress_flag : Bool) (query : String) (limit offset page_size : Int) :
    Except Exn Json := do
  let req := Json.object [("progress", .boolean progress_flag), ("query", .string query)]
  let req ← if limit > 0 then req.set "limit" (.number_integer limit) else pure req
  let req ← if offset > 0 then req.set "offset" (.number_integer offset) else pure req
  let req ← if page_size > 0 then req.set "page_size" (.number_integer page_size) else pure req
  return req

/-- The reporting after the transport has returned (lines 169-177). -/
def post_loop (exit_flag : Bool) (rep : Json) : Run Unit :=
  let notice : List Out := if exit_flag then [.text "Operation Cancelled.\n"] else []
  if rep.contains "errors" then
    match rep.get_at "errors" with
    | .error e => ⟨notice, .error e⟩
    | .ok errors => ⟨notice ++ errors.items.flatMap (fun e => [.dump (-1) e, .text "\n"]), .ok ()⟩
  else ⟨notice, .ok ()⟩

/-- The entries of the `errors` field of a response, as a range-for visits them; none
when the response has no such field. -/
def error_entries (rep : Json) : List Json :=
  match rep with
  | .object m =>
    match lookup "errors" m with
    | some errors => errors.items
    | none => []
  | _ => []

/-- Outcome of `execute`: the events in order, and the exit code returned or the
exception that left the function. -/
structure execute_result where
  events : List Event
  exit : Except Exn Int

/-- Method `rm::execute`, from the point where the arguments have been parsed. -/
def execute {F : Type} (B : format_library F) (cli : transport) (env : environment)
    (opts : parsed_options) : execute_result :=
  match opts.query with
  | none => ⟨[.cerr "Error: Missing general query.\n"], .ok 1⟩
  | some query =>
    if env.getRodsEnv < 0 then
      ⟨[.cerr "Error: Could not get iRODS environment.\n"], .ok 1⟩
    else
      match env.connect with
      | .error e => ⟨[.get_connection], .error e⟩
      | .ok () =>
        match initial_request opts.progress_flag query opts.limit opts.offset opts.page_size with
        | .error e => ⟨[.get_connection], .error e⟩
        | .ok req =>
          let r :=
            cli (progress_handler opts.progress_flag) (response_handler B opts.format) req "query"
          match r.rep with
          | .error e => ⟨[.get_connection, .invoke req "query"] ++ r.events, .error e⟩
          | .ok rep =>
            let report := post_loop r.exit_flag rep
            match report.res with
            | .error e =>
              ⟨[.get_connection, .invoke req "query"] ++ r.events ++ report.out.map .cout,
                .error e⟩
            | .ok () =>
              ⟨[.get_connection, .invoke req "query"] ++ r.events ++ report.out.map .cout,
                .ok 0⟩

/-- The parsing of the argument vector on lines 113-115 (`po::store` of the
parsed command line, then `po::notify`), which belongs to `boost::program_options`
and not to the repository: it either leaves the parsed values behind or throws (an
unknown option, a missing or malformed option value, a second positional argument). -/
abbrev option_reader := List String → Except Exn parsed_options

/-- Method `rm::execute` on its argument vector. Lines 113-115 stand in no `try` block, so
an exception of the parser leaves `execute` at once; otherwise the method goes on from
line 117 with the parsed values. -/
def execute_args {F : Type} (B : format_library F) (cli : transport) (env : environment)
    (parse : option_reader) (args : List String) : execute_result :=
  match parse args with
  | .error e => ⟨[], .error e⟩
  | .ok opts => execute B cli env opts

/-! ## Concrete collaborators for evaluation -/

/-- Scanner states of `first_pass_throws`. -/
inductive scan_state where
  | text
  | after_mark
  | in_digits

/-- Whether the first pass of the `boost::format` constructor over a template throws
`bad_format_string`: it does when an argument mark `%` that is not part of an escaped
`%%` or of a closed `%N%` directive is the last character of the template. -/
def first_pass_throws : scan_state → List Char → Bool
  | .text, [] => false
  | .text, c :: rest =>
    if c = '%' then first_pass_throws .after_mark rest else first_pass_throws .text rest
  | .after_mark, [] => true
  | .after_mark, c :: rest =>
    if c = '%' then first_pass_throws .text rest
    else if c.isDigit then first_pass_throws .in_digits rest
    else first_pass_throws .text rest
  | .in_digits, [] => false
  | .in_digits, c :: rest =>
    if c.isDigit then first_pass_throws .in_digits rest else first_pass_throws .text rest

/-- Number of argument marks the first pass counts. -/
def count_marks : scan_state → List Char → Nat
  | .text, [] => 0
  | .text, c :: rest =>
    if c = '%' then count_marks .after_mark rest else count_marks .text rest
  | .after_mark, [] => 1
  | .after_mark, c :: rest =>
    if c = '%' then count_marks .text rest
    else if c.isDigit then 1 + count_marks .in_digits rest
    else 1 + count_marks .text rest
  | .in_digits, [] => 0
  | .in_digits, c :: rest =>
    if c.isDigit then count_marks .in_digits rest else count_marks .text rest

/-- A small formatter to evaluate the model on: a template is rejected when the first
pass throws; otherwise it expects one value per argument mark, refuses a value beyond
that number and refuses to render with fewer. The rendered text is the template itself:
the substitution of the values is left out. -/
def sample_format : format_library (String × Nat × Nat) where
  construct := fun t =>
    if first_pass_throws .text t.toList then
      .error "boost::bad_format_string: format-string is ill-formed"
    else .ok (t, count_marks .text t.toList, 0)
  feed := fun f _ =>
    if f.2.2 < f.2.1 then .ok (f.1, f.2.1, f.2.2 + 1)
    else .error "boost::too_many_args: format-string referred to fewer arguments than were passed"
  render := fun f =>
    if f.2.2 < f.2.1 then
      .error "boost::too_few_args: format-string referred to more arguments than were passed"
    else .ok f.1

/-- A transport to evaluate the model on: one round. It calls the response handler once
with the initial request and the response `rep`, and returns `rep`; `flag` is the value
of `exit_flag` afterwards. A throw of the handler propagates. -/
def single_round (rep : Json) (flag : Bool) : transport :=
  fun _ handler req _ =>
    let h := handler req rep
    match h.res with
    | .error e => ⟨h.out.map .cout, .error e, flag⟩
    | .ok _ => ⟨h.out.map .cout, .ok rep, flag⟩

/-- Conversion of an option value to `int`: an optional sign followed by decimal digits
and nothing else, within the range of `int`. -/
def sample_int (v : String) : Option Int :=
  let convert (negative : Bool) (ds : List Char) : Option Int :=
    if ds.isEmpty || !ds.all Char.isDigit then none
    else
      match stoi_convert negative ds with
      | .ok n => some n
      | .error _ => none
  match v.toList with
  | '-' :: ds => convert true ds
  | '+' :: ds => convert false ds
  | ds => convert false ds

/-- The loop of `sample_reader` over the remaining arguments. -/
def sample_reader_loop : List String → parsed_options → Except Exn parsed_options
  | [], opts => .ok opts
  | [tok], opts =>
    if tok = "--progress" then .ok { opts with progress_flag := true }
    else
      match tok.toList with
      | '-' :: _ => .error (.other "boost::program_options: option rejected")
      | _ =>
        match opts.query with
        | none => .ok { opts with query := some tok }
        | some _ => .error (.other "boost::program_options: too many positional options")
  | tok :: value :: rest, opts =>
    if tok = "--progress" then
      sample_reader_loop (value :: rest) { opts with progress_flag := true }
    else if tok = "--format" then sample_reader_loop rest { opts with format := value }
    else if tok = "--limit" then
      match sample_int value with
      | some n => sample_reader_loop rest { opts with limit := n }
      | none => .error (.other "boost::program_options: invalid option value")
    else if tok = "--offset" then
      match sample_int value with
      | some n => sample_reader_loop rest { opts with offset := n }
      | none => .error (.other "boost::program_options: invalid option value")
    else if tok = "--page_size" then
      match sample_int value with
      | some n => sample_reader_loop rest { opts with page_size := n }
      | none => .error (.other "boost::program_options: invalid option value")
    else
      match tok.toList with
      | '-' :: _ => .error (.other "boost::program_options: option rejected")
      | _ =>
        match opts.query with
        | none => sample_reader_loop (value :: rest) { opts with query := some tok }
        | some _ => .error (.other "boost::program_options: too many positional options")

/-- A small option parser to evaluate the model on. It reads the long options of
`execute` in the form `--name value` (and `--progress` alone), takes the first argument
that does not start with `-` as the query, the empty string included, and rejects any
other argument starting with `-`, a malformed number, and a second positional argument.
It is a stand-in, not `boost::program_options`: the other spellings that library accepts
(`--name=value`, abbreviated names) are not covered; the theorems hold for any parser. -/
def sample_reader : option_reader :=
  fun args => sample_reader_loop args ⟨none, "", 0, 0, 0, false⟩

end irods.cli

namespace irods.cli

/-! ## Facts about JSON objects -/

theorem lookup_assign_same (k : String) (v : Json) (m : List (String × Json)) :
    lookup k (assign k v m) = some v := by
  induction m with
  | nil => simp [assign, lookup]
  | cons kv rest ih =>
    obtain ⟨k', v'⟩ := kv
    unfold assign
    by_cases h1 : k' = k
    · simp [h1, lookup]
    · by_cases h2 : key_lt k k' = true
      · simp [h1, h2, lookup]
      · simp [h1, h2, lookup, ih]

theorem lookup_assign_other (k k' : String) (v : Json) (m : List (String × Json))
    (hne : k' ≠ k) : lookup k' (assign k v m) = lookup k' m := by
  induction m with
  | nil => simp [assign, lookup, Ne.symm hne]
  | cons kv rest ih =>
    obtain ⟨k1, v1⟩ := kv
    unfold assign
    by_cases h1 : k1 = k
    · subst h1
      simp [lookup, Ne.symm hne]
    · by_cases h2 : key_lt k k1 = true
      · simp [h1, h2, lookup, Ne.symm hne]
      · by_cases h3 : k1 = k'
        · subst h3
          simp [h1, h2, lookup]
        · simp [h1, h2, lookup, h3, ih]

theorem lookup_isSome_iff_mem_keys (k : String) (m : List (String × Json)) :
    (lookup k m).isSome = true ↔ k ∈ keys m := by
  induction m with
  | nil => simp [lookup, keys]
  | cons kv rest ih =>
    obtain ⟨k1, v1⟩ := kv
    unfold lookup
    by_cases h : k1 = k
    · simp [h, keys]
    · have h' : ¬ k = k1 := fun e => h e.symm
      simp only [h, if_false, ih, keys, List.map_cons, List.mem_cons, h', false_or]

theorem lookup_eq_none_of_not_mem (k : String) (m : List (String × Json))
    (h : k ∉ keys m) : lookup k m = none := by
  have := (lookup_isSome_iff_mem_keys k m).not.mpr h
  cases hl : lookup k m with
  | none => rfl
  | some v => simp [hl] at this

theorem lookup_update_fold (k : String) (n : List (String × Json)) :
    ∀ m : List (String × Json), (keys n).Nodup →
      lookup k (n.foldl (fun acc kv => assign kv.1 kv.2 acc) m) =
        match lookup k n with
        | some v => some v
        | none => lookup k m := by
  induction n with
  | nil => intro m _; simp [lookup]
  | cons kv rest ih =>
    intro m hn
    obtain ⟨k1, v1⟩ := kv
    have hn' : k1 ∉ keys rest ∧ (keys rest).Nodup := by
      simpa [keys] using hn
    rw [List.foldl_cons, ih _ hn'.2]
    by_cases h : k1 = k
    · subst h
      simp [lookup, lookup_eq_none_of_not_mem _ _ hn'.1, lookup_assign_same]
    · have h' : k ≠ k1 := fun e => h e.symm
      simp only [lookup, h, if_false, lookup_assign_other k1 k v1 m h']

theorem update_objects (req rep : List (String × Json)) :
    Json.update (.object req) (.object rep) =
      .ok (.object (rep.foldl (fun acc kv => assign kv.1 kv.2 acc) req)) := rfl

theorem contains_get_at (j : Json) (k : String) (h : j.contains k = true) :
    ∃ v, j.get_at k = .ok v ∧ ∃ m, j = .object m ∧ lookup k m = some v := by
  cases j with
  | object m =>
    simp only [Json.contains] at h
    cases hl : lookup k m with
    | none => simp [hl] at h
    | some v => exact ⟨v, by simp [Json.get_at, hl], m, rfl, hl⟩
  | _ => simp [Json.contains] at h

/-! ## Facts about the result formatter and the response handler -/

theorem print_formatted_of_construct_error {F : Type} (B : format_library F)
    (fmt : String) (row : Json) (e : String) (h : B.construct fmt = .error e) :
    print_formatted B fmt row = ⟨[], .error (.format_error e)⟩ := by
  unfold print_formatted
  rw [h]

theorem print_formatted_of_construct_ok {F : Type} (B : format_library F)
    (fmt : String) (row : Json) (f : F) (h : B.construct fmt = .ok f) :
    (print_formatted B fmt row).res = .ok () ∧
      ∃ line, (print_formatted B fmt row).out = [.text line, .text "\n"] := by
  unfold print_formatted
  rw [h]
  simp only
  cases feed_all B f row.items with
  | error e => exact ⟨rfl, e, rfl⟩
  | ok fed =>
    simp only
    cases B.render fed with
    | error e => exact ⟨rfl, e, rfl⟩
    | ok line => exact ⟨rfl, line, rfl⟩

theorem print_rows_of_construct_ok {F : Type} (B : format_library F)
    (fmt : String) (f : F) (h : B.construct fmt = .ok f) (rows : List Json) :
    (print_rows B fmt rows).res = .ok () ∧
      (print_rows B fmt rows).out = rows.flatMap (fun row => (print_formatted B fmt row).out) := by
  induction rows with
  | nil => exact ⟨rfl, rfl⟩
  | cons row rest ih =>
    have h1 := (print_formatted_of_construct_ok B fmt row f h).1
    unfold print_rows
    simp only [h1, ih.1, ih.2, List.flatMap_cons, and_self]

theorem print_rows_of_construct_error {F : Type} (B : format_library F)
    (fmt : String) (e : String) (h : B.construct fmt = .error e) (row : Json)
    (rest : List Json) :
    print_rows B fmt (row :: rest) = ⟨[], .error (.format_error e)⟩ := by
  unfold print_rows
  simp only [print_formatted_of_construct_error B fmt row e h]

theorem print_results_no_results {F : Type} (B : format_library F) (format : String)
    (rep : Json) (h : rep.contains "results" = false) :
    print_results B format rep = ⟨[], .ok ()⟩ := by
  unfold print_results
  simp [h]

theorem print_results_no_template {F : Type} (B : format_library F) (rep results : Json)
    (h : rep.get_at "results" = .ok results) (hc : rep.contains "results" = true) :
    print_results B "" rep = ⟨[.dump 4 results, .text "\n"], .ok ()⟩ := by
  unfold print_results
  simp [h, hc]

theorem print_results_no_template_res {F : Type} (B : format_library F) (rep : Json) :
    (print_results B "" rep).res = .ok () := by
  cases hc : rep.contains "results" with
  | false => rw [print_results_no_results B "" rep hc]
  | true =>
    obtain ⟨v, hv, _⟩ := contains_get_at rep "results" hc
    rw [print_results_no_template B rep v hv hc]

theorem print_results_template {F : Type} (B : format_library F) (format : String)
    (rep results : Json) (hf : format ≠ "")
    (h : rep.get_at "results" = .ok results) (hc : rep.contains "results" = true) :
    print_results B format rep = print_rows B format results.items := by
  unfold print_results
  simp [h, hc, hf]

theorem response_handler_res {F : Type} (B : format_library F) (format : String)
    (req rep : Json) :
    (response_handler B format req rep).res =
      match (print_results B format rep).res with
      | .error e => .error e
      | .ok () => Json.update req rep := by
  unfold response_handler
  simp only
  cases (print_results B format rep).res <;> rfl

theorem response_handler_out {F : Type} (B : format_library F) (format : String)
    (req rep : Json) :
    (response_handler B format req rep).out = (print_results B format rep).out := by
  unfold response_handler
  simp only
  cases (print_results B format rep).res <;> rfl

/-! ## Facts about the progress reporter -/

theorem to_unsigned_long_lt (x : Int) : to_unsigned_long x < ULONG_SIZE := by
  unfold to_unsigned_long ULONG_SIZE
  omega

theorem advance_closed_form (fuel : Nat) (x : Int) :
    ∀ c : Nat, c < ULONG_SIZE →
      advance fuel x ⟨c⟩ =
        if distance c (to_unsigned_long x) ≤ fuel then
          some (⟨to_unsigned_long x⟩, distance c (to_unsigned_long x))
        else none := by
  have ht := to_unsigned_long_lt x
  induction fuel with
  | zero =>
    intro c hc
    unfold advance
    by_cases h : c = to_unsigned_long x
    · subst h
      have hd : distance (to_unsigned_long x) (to_unsigned_long x) = 0 := by
        unfold distance ULONG_SIZE at *
        omega
      simp [hd]
    · have hd : distance c (to_unsigned_long x) ≠ 0 := by
        unfold distance ULONG_SIZE at *
        omega
      simp [h, hd]
  | succ n ih =>
    intro c hc
    unfold advance
    by_cases h : c = to_unsigned_long x
    · subst h
      have hd : distance (to_unsigned_long x) (to_unsigned_long x) = 0 := by
        unfold distance ULONG_SIZE at *
        omega
      simp [hd]
    · have hc' : (c + 1) % ULONG_SIZE < ULONG_SIZE := by
        unfold ULONG_SIZE
        omega
      have hd : distance c (to_unsigned_long x) =
          distance ((c + 1) % ULONG_SIZE) (to_unsigned_long x) + 1 := by
        unfold distance ULONG_SIZE at *
        omega
      simp only [ne_eq, h, not_false_eq_true, if_true, progress_display.incr]
      rw [ih _ hc', hd]
      by_cases hf : distance ((c + 1) % ULONG_SIZE) (to_unsigned_long x) ≤ n
      · simp [hf]
      · simp [hf]

theorem stoi_convert_range (negative : Bool) (ds : List Char) (x : Int)
    (h : stoi_convert negative ds = .ok x) : INT_MIN ≤ x ∧ x ≤ INT_MAX := by
  unfold stoi_convert at h
  by_cases he : ds.isEmpty = true
  · rw [if_pos he] at h
    cases h
  · rw [if_neg he] at h
    simp only at h
    by_cases hr : INT_MIN ≤ (if negative = true then -(digits_value ds : Int) else (digits_value ds : Int)) ∧
        (if negative = true then -(digits_value ds : Int) else (digits_value ds : Int)) ≤ INT_MAX
    · rw [if_pos hr] at h
      cases h
      exact hr
    · rw [if_neg hr] at h
      cases h

theorem stoi_range (p : String) (x : Int) (h : stoi p = .ok x) :
    INT_MIN ≤ x ∧ x ≤ INT_MAX := by
  unfold stoi at h
  split at h <;> exact stoi_convert_range _ _ _ h

theorem to_unsigned_long_of_nonneg (x : Int) (h0 : 0 ≤ x) (h1 : x ≤ INT_MAX) :
    to_unsigned_long x = x.toNat := by
  unfold to_unsigned_long ULONG_SIZE
  unfold INT_MAX at h1
  omega

theorem print_progress_closed_form (fuel : Nat) (p : String) (x : Int) (c : Nat)
    (hp : stoi p = .ok x) (hc : c < ULONG_SIZE) :
    print_progress fuel p ⟨c⟩ =
      if distance c (to_unsigned_long x) ≤ fuel then
        some (⟨to_unsigned_long x⟩, distance c (to_unsigned_long x))
      else none := by
  unfold print_progress
  rw [hp]
  exact advance_closed_form fuel x c hc

/-- C10: when the token parses to an integer `x` and the display counter `c` satisfies
`c ≤ x`, `print_progress` returns after exactly `x - c` increments with the counter equal
to `x`: any run allowed at least `x - c` iterations returns that result, and the loop is
still running after any smaller number of iterations. -/
theorem print_progress_advances_to_parsed_value (p : String) (x : Int)
    (prog : progress_display) (hp : stoi p = .ok x) (hc : (prog.count : Int) ≤ x) :
    (∀ fuel : Nat, x - prog.count ≤ fuel →
        print_progress fuel p prog = some (⟨x.toNat⟩, (x - prog.count).toNat)) ∧
    (∀ fuel : Nat, (fuel : Int) < x - prog.count → print_progress fuel p prog = none) := by
  obtain ⟨c⟩ := prog
  simp only at hc
  have hr := stoi_range p x hp
  have hx : to_unsigned_long x = x.toNat := to_unsigned_long_of_nonneg x (by omega) hr.2
  have hcs : c < ULONG_SIZE := by
    have := hr.2
    unfold INT_MAX at this
    unfold ULONG_SIZE
    omega
  have hd : distance c x.toNat = (x - c).toNat := by
    have := hr.2
    unfold INT_MAX at this
    unfold distance ULONG_SIZE
    omega
  constructor
  · intro fuel hf
    simp only at hf
    rw [print_progress_closed_form fuel p x c hp hcs, hx, hd, if_pos (by omega)]
  · intro fuel hf
    simp only at hf
    rw [print_progress_closed_form fuel p x c hp hcs, hx, hd, if_neg (by omega)]

theorem print_progress_advances_to_parsed_value_witness :
    stoi "50" = .ok 50 ∧ (((⟨10⟩ : progress_display).count : Int) ≤ 50) ∧
      print_progress 40 "50" ⟨10⟩ = some (⟨50⟩, 40) ∧ print_progress 39 "50" ⟨10⟩ = none :=
  ⟨by decide, by decide,
    (print_progress_advances_to_parsed_value "50" 50 ⟨10⟩ (by decide) (by decide)).1 40
      (by decide),
    (print_progress_advances_to_parsed_value "50" 50 ⟨10⟩ (by decide) (by decide)).2 39
      (by decide)⟩

/-- C4 (behaviour of the code on a regression): with the counter at 10, the token "5"
does not leave the counter unchanged. The loop `while(prog.count() != x) ++prog` keeps
incrementing: it is still running after any number of iterations below `2^64 - 5`, and
after `2^64 - 5` increments the `unsigned long` counter has wrapped around to 5, below
its previous value 10. Feeding "10", "5", "40" gives the counter values 10, 5, 40. -/
theorem print_progress_regression_wraps_around :
    print_progress 10 "10" ⟨0⟩ = some (⟨10⟩, 10) ∧
    (∀ fuel : Nat, print_progress fuel "5" ⟨10⟩ =
      if 18446744073709551611 ≤ fuel then some (⟨5⟩, 18446744073709551611) else none) ∧
    print_progress 35 "40" ⟨5⟩ = some (⟨40⟩, 35) := by
  refine ⟨by decide, ?_, by decide⟩
  intro fuel
  rw [print_progress_closed_form fuel "5" 5 10 (by decide) (by decide)]
  have h1 : to_unsigned_long 5 = 5 := by decide
  have h2 : distance 10 5 = 18446744073709551611 := by decide
  rw [h1, h2]

/-- C5 (counterexample): the token "150" is not the text of an integer in `[0,100]`, yet
`print_progress` is not a no-op on it: from counter 0 it performs 150 increments and
leaves the counter at 150. -/
theorem print_progress_out_of_range_token_advances :
    ¬ (∀ (p : String) (prog : progress_display) (fuel : Nat),
        (∀ x : Int, stoi p = .ok x → x < 0 ∨ 100 < x) →
          print_progress fuel p prog = some (prog, 0)) := by
  intro h
  have h150 := h "150" ⟨0⟩ 150 (by
    intro x hx
    have : stoi "150" = .ok 150 := by decide
    rw [this] at hx
    cases hx
    decide)
  have : print_progress 150 "150" ⟨0⟩ = some (⟨150⟩, 150) := by
    rw [print_progress_closed_form 150 "150" 150 0 (by decide) (by decide)]
    decide
  rw [this] at h150
  exact absurd h150 (by decide)

/-- C5 (amended): for every token on which `std::stoi` fails (no decimal digits after
the optional white space and sign, or a value outside the range of `int`),
`print_progress` is a no-op: it returns, after zero increments, with the display counter
unchanged. -/
theorem print_progress_noop_on_parse_failure (p : String) (e : stoi_error)
    (prog : progress_display) (fuel : Nat) (h : stoi p = .error e) :
    print_progress fuel p prog = some (prog, 0) := by
  unfold print_progress
  rw [h]

theorem print_progress_noop_on_parse_failure_witness :
    stoi "abc" = .error .invalid_argument ∧ print_progress 0 "abc" ⟨7⟩ = some (⟨7⟩, 0) :=
  ⟨by decide, print_progress_noop_on_parse_failure "abc" .invalid_argument ⟨7⟩ 0 (by decide)⟩

/-! ## The response handler: merge, formatting, output -/

/-- C3: for request and response objects `req` and `rep`, the next request the response
handler returns is `req` overlaid with `rep`. There is one object `m` such that the
handler, whatever the template, returns nothing but `m`, and with no template does
return it; the keys of `m` are those of `req` together with those of `rep`; a key of
`rep` has the value `rep` gives it; a key absent from `rep` has the value `req` gives
it; and an empty `rep` gives `req` back unchanged. -/
theorem response_handler_next_request_is_overlay {F : Type} (B : format_library F)
    (format : String) (req rep : List (String × Json)) (hrep : (keys rep).Nodup) :
    ∃ m : List (String × Json),
      (∀ r, (response_handler B format (.object req) (.object rep)).res = .ok r →
        r = .object m) ∧
      (response_handler B "" (.object req) (.object rep)).res = .ok (.object m) ∧
      (∀ k, k ∈ keys m ↔ k ∈ keys req ∨ k ∈ keys rep) ∧
      (∀ k v, lookup k rep = some v → lookup k m = some v) ∧
      (∀ k, lookup k rep = none → lookup k m = lookup k req) ∧
      (rep = [] → m = req) := by
  refine ⟨rep.foldl (fun acc kv => assign kv.1 kv.2 acc) req, ?_, ?_, ?_, ?_, ?_, ?_⟩
  · intro r hr
    rw [response_handler_res] at hr
    cases hp : (print_results B format (.object rep)).res with
    | error e => rw [hp] at hr; cases hr
    | ok u =>
      rw [hp] at hr
      simp only [update_objects] at hr
      cases hr
      rfl
  · rw [response_handler_res, print_results_no_template_res]
    rfl
  · intro k
    rw [← lookup_isSome_iff_mem_keys, ← lookup_isSome_iff_mem_keys,
      ← lookup_isSome_iff_mem_keys, lookup_update_fold k rep req hrep]
    cases lookup k rep <;> simp
  · intro k v hv
    rw [lookup_update_fold k rep req hrep, hv]
  · intro k hk
    rw [lookup_update_fold k rep req hrep, hk]
  · intro h
    subst h
    rfl

theorem response_handler_next_request_is_overlay_witness :
    (keys [("offset", Json.number_integer 2), ("cursor", Json.string "c1")]).Nodup ∧
    ∃ m : List (String × Json),
      (∀ r, (response_handler sample_format "%1%"
          (.object [("offset", .number_integer 0), ("query", .string "q")])
          (.object [("offset", .number_integer 2), ("cursor", .string "c1")])).res = .ok r →
        r = .object m) ∧
      (response_handler sample_format ""
          (.object [("offset", .number_integer 0), ("query", .string "q")])
          (.object [("offset", .number_integer 2), ("cursor", .string "c1")])).res =
        .ok (.object m) ∧
      (∀ k, k ∈ keys m ↔ k ∈ keys [("offset", Json.number_integer 0), ("query", .string "q")] ∨
        k ∈ keys [("offset", Json.number_integer 2), ("cursor", .string "c1")]) ∧
      (∀ k v, lookup k [("offset", Json.number_integer 2), ("cursor", .string "c1")] = some v →
        lookup k m = some v) ∧
      (∀ k, lookup k [("offset", Json.number_integer 2), ("cursor", .string "c1")] = none →
        lookup k m = lookup k [("offset", Json.number_integer 0), ("query", .string "q")]) ∧
      ([("offset", Json.number_integer 2), ("cursor", Json.string "c1")] = [] →
        m = [("offset", Json.number_integer 0), ("query", .string "q")]) :=
  ⟨by decide,
    response_handler_next_request_is_overlay sample_format "%1%"
      [("offset", .number_integer 0), ("query", .string "q")]
      [("offset", .number_integer 2), ("cursor", .string "c1")] (by decide)⟩

/-- C6 (behaviour of the code on a template the formatter rejects): when the
constructor of the formatter throws on the template, `print_formatted` does not catch
it, because the formatter is constructed before the `try` block: nothing is written and
the exception leaves `print_formatted`. With that template and a response whose
`results` has at least one row, the response handler ends at the first row with the
same exception and returns no next request. -/
theorem print_formatted_propagates_constructor_failure {F : Type} (B : format_library F)
    (format e : String) (req rep results row : Json) (rest : List Json)
    (hf : format ≠ "") (hB : B.construct format = .error e)
    (hc : rep.contains "results" = true) (hr : rep.get_at "results" = .ok results)
    (hrows : results.items = row :: rest) :
    print_formatted B format row = ⟨[], .error (.format_error e)⟩ ∧
    (response_handler B format req rep).res = .error (.format_error e) ∧
    (response_handler B format req rep).out = [] := by
  have hp : print_results B format rep = ⟨[], .error (.format_error e)⟩ := by
    rw [print_results_template B format rep results hf hr hc, hrows,
      print_rows_of_construct_error B format e hB]
  refine ⟨print_formatted_of_construct_error B format row e hB, ?_, ?_⟩
  · rw [response_handler_res, hp]
  · rw [response_handler_out, hp]

theorem print_formatted_propagates_constructor_failure_witness :
    ("%" : String) ≠ "" ∧
    sample_format.construct "%" =
      .error "boost::bad_format_string: format-string is ill-formed" ∧
    print_formatted sample_format "%" (.array [.string "/a", .string "f1"]) =
      ⟨[], .error (.format_error "boost::bad_format_string: format-string is ill-formed")⟩ ∧
    (response_handler sample_format "%" (.object [("query", .string "q")])
      (.object [("results", .array [.array [.string "/a", .string "f1"]])])).res =
      .error (.format_error "boost::bad_format_string: format-string is ill-formed") ∧
    (response_handler sample_format "%" (.object [("query", .string "q")])
      (.object [("results", .array [.array [.string "/a", .string "f1"]])])).out = [] :=
  ⟨by decide, rfl,
    print_formatted_propagates_constructor_failure sample_format "%"
      "boost::bad_format_string: format-string is ill-formed"
      (.object [("query", .string "q")])
      (.object [("results", .array [.array [.string "/a", .string "f1"]])])
      (.array [.array [.string "/a", .string "f1"]])
      (.array [.string "/a", .string "f1"]) [] (by decide) rfl rfl rfl rfl⟩

/-- The part of C6 the code does provide: once the constructor has accepted the
template, `print_formatted` never throws, whatever the row; it writes one line, the
rendered row or the `what()` of the failure. -/
theorem print_formatted_catches_feed_and_render_failures {F : Type} (B : format_library F)
    (format : String) (row : Json) (f : F) (h : B.construct format = .ok f) :
    (print_formatted B format row).res = .ok () ∧
      ∃ line, (print_formatted B format row).out = [.text line, .text "\n"] :=
  print_formatted_of_construct_ok B format row f h

/-- The part of C9 the code does provide. Without a `results` field the handler writes
nothing; with one and no template it writes the `results` value once with `dump(4)`
and a newline; with one and a template the constructor accepts, it writes the output of
`print_formatted` for each row in order. In all three cases it returns `req` updated
with `rep`. -/
theorem response_handler_output {F : Type} (B : format_library F) (format : String)
    (req rep : Json) :
    (rep.contains "results" = false →
      response_handler B format req rep = ⟨[], Json.update req rep⟩) ∧
    (∀ results, rep.get_at "results" = .ok results → rep.contains "results" = true →
      response_handler B "" req rep =
        ⟨[.dump 4 results, .text "\n"], Json.update req rep⟩) ∧
    (∀ results f, rep.get_at "results" = .ok results → rep.contains "results" = true →
      format ≠ "" → B.construct format = .ok f →
      response_handler B format req rep =
        ⟨results.items.flatMap (fun row => (print_formatted B format row).out),
          Json.update req rep⟩) := by
  refine ⟨?_, ?_, ?_⟩
  · intro h
    unfold response_handler
    rw [print_results_no_results B format rep h]
  · intro results hr hc
    unfold response_handler
    rw [print_results_no_template B rep results hr hc]
  · intro results f hr hc hf hB
    have h1 := print_rows_of_construct_ok B format f hB results.items
    unfold response_handler
    rw [print_results_template B format rep results hf hr hc]
    simp only [h1.1, h1.2]

/-- C9 (behaviour of the code on a template the formatter rejects): with the template
"%" and a response whose `results` holds two rows, the handler calls `print_formatted`
for the first row only, which throws; nothing is written for either row and no next
request is returned, whereas with no template the same round writes the results and
returns the merged request. -/
theorem response_handler_stops_at_rejected_template :
    response_handler sample_format "%" (.object [("query", .string "q")])
        (.object [("results", .array [.array [.string "/a"], .array [.string "/b"]])]) =
      ⟨[], .error (.format_error "boost::bad_format_string: format-string is ill-formed")⟩ ∧
    response_handler sample_format "" (.object [("query", .string "q")])
        (.object [("results", .array [.array [.string "/a"], .array [.string "/b"]])]) =
      ⟨[.dump 4 (.array [.array [.string "/a"], .array [.string "/b"]]), .text "\n"],
        .ok (.object [("query", .string "q"),
          ("results", .array [.array [.string "/a"], .array [.string "/b"]])])⟩ :=
  ⟨rfl, rfl⟩

/-! ## The command -/

theorem initial_request_fields (progress_flag : Bool) (query : String)
    (limit offset page_size : Int) :
    ∃ m : List (String × Json),
      initial_request progress_flag query limit offset page_size = .ok (.object m) ∧
      lookup "query" m = some (.string query) ∧
      lookup "progress" m = some (.boolean progress_flag) ∧
      lookup "limit" m = (if 0 < limit then some (.number_integer limit) else none) ∧
      lookup "offset" m = (if 0 < offset then some (.number_integer offset) else none) ∧
      lookup "page_size" m =
        (if 0 < page_size then some (.number_integer page_size) else none) ∧
      (∀ k, k ∈ keys m →
        k = "query" ∨ k = "progress" ∨ k = "limit" ∨ k = "offset" ∨ k = "page_size") ∧
      (keys m).Nodup := by
  by_cases hl : 0 < limit <;> by_cases ho : 0 < offset <;> by_cases hp : 0 < page_size
  all_goals
    simp only [initial_request, gt_iff_lt, hl, ho, hp, if_true, if_false, Json.set,
      bind, Except.bind, pure, Except.pure]
    refine ⟨_, rfl, rfl, rfl, rfl, rfl, rfl, ?_, ?_⟩
    · intro k hk
      simp [keys, assign, key_lt, chars_lt] at hk
      tauto
    · simp [keys, assign, key_lt, chars_lt]

theorem post_loop_eq (exit_flag : Bool) (rep : Json) :
    post_loop exit_flag rep =
      ⟨(if exit_flag then [Out.text "Operation Cancelled.\n"] else []) ++
          (error_entries rep).flatMap (fun e => [.dump (-1) e, .text "\n"]), .ok ()⟩ := by
  unfold post_loop
  cases hc : rep.contains "errors" with
  | true =>
    obtain ⟨v, hv, m, hm, hl⟩ := contains_get_at rep "errors" hc
    subst hm
    simp [hv, error_entries, hl]
  | false =>
    cases rep with
    | object m =>
      have hl : lookup "errors" m = none := by
        cases h : lookup "errors" m with
        | none => rfl
        | some v => simp [Json.contains, h] at hc
      simp [error_entries, hl]
    | _ => simp [error_entries]

theorem execute_of_missing_query {F : Type} (B : format_library F) (cli : transport)
    (env : environment) (opts : parsed_options) (hq : opts.query = none) :
    execute B cli env opts = ⟨[.cerr "Error: Missing general query.\n"], .ok 1⟩ := by
  unfold execute
  rw [hq]

theorem execute_of_bad_environment {F : Type} (B : format_library F) (cli : transport)
    (env : environment) (opts : parsed_options) (query : String)
    (hq : opts.query = some query) (henv : env.getRodsEnv < 0) :
    execute B cli env opts =
      ⟨[.cerr "Error: Could not get iRODS environment.\n"], .ok 1⟩ := by
  unfold execute
  rw [hq]
  simp only [henv, if_true]

theorem execute_of_connect_error {F : Type} (B : format_library F) (cli : transport)
    (env : environment) (opts : parsed_options) (query : String) (e : Exn)
    (hq : opts.query = some query) (henv : 0 ≤ env.getRodsEnv)
    (hconn : env.connect = .error e) :
    execute B cli env opts = ⟨[.get_connection], .error e⟩ := by
  unfold execute
  rw [hq]
  simp only [not_lt.mpr henv, if_false, hconn]

theorem execute_of_transport_ok {F : Type} (B : format_library F) (cli : transport)
    (env : environment) (opts : parsed_options) (query : String) (req rep : Json)
    (hq : opts.query = some query) (henv : 0 ≤ env.getRodsEnv)
    (hconn : env.connect = .ok ())
    (hreq : initial_request opts.progress_flag query opts.limit opts.offset opts.page_size =
      .ok req)
    (hrep : (cli (progress_handler opts.progress_flag) (response_handler B opts.format) req
      "query").rep = .ok rep) :
    execute B cli env opts =
      ⟨[.get_connection, .invoke req "query"] ++
          (cli (progress_handler opts.progress_flag) (response_handler B opts.format) req
            "query").events ++
          ((if (cli (progress_handler opts.progress_flag) (response_handler B opts.format)
                req "query").exit_flag
              then [Out.text "Operation Cancelled.\n"] else []) ++
            (error_entries rep).flatMap (fun e => [Out.dump (-1) e, Out.text "\n"])).map
            Event.cout,
        .ok 0⟩ := by
  unfold execute
  rw [hq]
  simp only [not_lt.mpr henv, if_false, hconn, hreq, hrep, post_loop_eq]

theorem execute_of_transport_error {F : Type} (B : format_library F) (cli : transport)
    (env : environment) (opts : parsed_options) (query : String) (req : Json) (e : Exn)
    (hq : opts.query = some query) (henv : 0 ≤ env.getRodsEnv)
    (hconn : env.connect = .ok ())
    (hreq : initial_request opts.progress_flag query opts.limit opts.offset opts.page_size =
      .ok req)
    (hrep : (cli (progress_handler opts.progress_flag) (response_handler B opts.format) req
      "query").rep = .error e) :
    execute B cli env opts =
      ⟨[.get_connection, .invoke req "query"] ++
          (cli (progress_handler opts.progress_flag) (response_handler B opts.format) req
            "query").events, .error e⟩ := by
  unfold execute
  rw [hq]
  simp only [not_lt.mpr henv, if_false, hconn, hreq, hrep]

theorem execute_events_of_query {F : Type} (B : format_library F) (cli : transport)
    (env : environment) (opts : parsed_options) (query : String) (req : Json)
    (hq : opts.query = some query) (henv : 0 ≤ env.getRodsEnv)
    (hconn : env.connect = .ok ())
    (hreq : initial_request opts.progress_flag query opts.limit opts.offset opts.page_size =
      .ok req) :
    ∃ rest, (execute B cli env opts).events = .get_connection :: .invoke req "query" :: rest := by
  cases hrep : (cli (progress_handler opts.progress_flag) (response_handler B opts.format) req
      "query").rep with
  | error e =>
    rw [execute_of_transport_error B cli env opts query req e hq henv hconn hreq hrep]
    exact ⟨_, rfl⟩
  | ok rep =>
    rw [execute_of_transport_ok B cli env opts query req rep hq henv hconn hreq hrep]
    exact ⟨_, rfl⟩

/-- C1: when `execute` reaches the transport, the initial request it hands over is an
object that holds `query` with the supplied text and `progress` with the flag, holds
`limit` (`offset`, `page_size`) exactly when the supplied value is strictly positive and
then with that value, and has no other key and no key twice. -/
theorem execute_sends_initial_request {F : Type} (B : format_library F) (cli : transport)
    (env : environment) (opts : parsed_options) (query : String)
    (hq : opts.query = some query) (henv : 0 ≤ env.getRodsEnv)
    (hconn : env.connect = .ok ()) :
    ∃ (m : List (String × Json)) (rest : List Event),
      (execute B cli env opts).events =
        .get_connection :: .invoke (.object m) "query" :: rest ∧
      lookup "query" m = some (.string query) ∧
      lookup "progress" m = some (.boolean opts.progress_flag) ∧
      lookup "limit" m =
        (if 0 < opts.limit then some (.number_integer opts.limit) else none) ∧
      lookup "offset" m =
        (if 0 < opts.offset then some (.number_integer opts.offset) else none) ∧
      lookup "page_size" m =
        (if 0 < opts.page_size then some (.number_integer opts.page_size) else none) ∧
      (∀ k, k ∈ keys m →
        k = "query" ∨ k = "progress" ∨ k = "limit" ∨ k = "offset" ∨ k = "page_size") ∧
      (keys m).Nodup := by
  obtain ⟨m, hm, h1, h2, h3, h4, h5, h6, h7⟩ :=
    initial_request_fields opts.progress_flag query opts.limit opts.offset opts.page_size
  obtain ⟨rest, hrest⟩ := execute_events_of_query B cli env opts query _ hq henv hconn hm
  exact ⟨m, rest, hrest, h1, h2, h3, h4, h5, h6, h7⟩

theorem execute_sends_initial_request_witness :
    (⟨some "select COLL_NAME", "", 5, 0, -3, true⟩ : parsed_options).query =
      some "select COLL_NAME" ∧
    ∃ (m : List (String × Json)) (rest : List Event),
      (execute sample_format (single_round (.object []) false) ⟨0, .ok ()⟩
        ⟨some "select COLL_NAME", "", 5, 0, -3, true⟩).events =
        .get_connection :: .invoke (.object m) "query" :: rest ∧
      lookup "query" m = some (.string "select COLL_NAME") ∧
      lookup "progress" m = some (.boolean true) ∧
      lookup "limit" m = (if (0 : Int) < 5 then some (.number_integer 5) else none) ∧
      lookup "offset" m = (if (0 : Int) < 0 then some (.number_integer 0) else none) ∧
      lookup "page_size" m =
        (if (0 : Int) < -3 then some (.number_integer (-3)) else none) ∧
      (∀ k, k ∈ keys m →
        k = "query" ∨ k = "progress" ∨ k = "limit" ∨ k = "offset" ∨ k = "page_size") ∧
      (keys m).Nodup :=
  ⟨rfl,
    execute_sends_initial_request sample_format (single_round (.object []) false)
      ⟨0, .ok ()⟩ ⟨some "select COLL_NAME", "", 5, 0, -3, true⟩ "select COLL_NAME" rfl
      (by decide) rfl⟩

/-- C2 (counterexample): a query that is present but empty is not rejected. With the
empty string as the query and everything else in order, `execute` obtains a connection,
hands the transport a request whose `query` is the empty string, and returns 0. -/
theorem execute_sends_empty_query :
    execute sample_format (single_round (.object []) false) ⟨0, .ok ()⟩
        ⟨some "", "", 0, 0, 0, false⟩ =
      ⟨[.get_connection,
          .invoke (.object [("progress", .boolean false), ("query", .string "")]) "query"],
        .ok 0⟩ :=
  rfl

theorem execute_args_of_parsed {F : Type} (B : format_library F) (cli : transport)
    (env : environment) (parse : option_reader) (args : List String)
    (opts : parsed_options) (h : parse args = .ok opts) :
    execute_args B cli env parse args = execute B cli env opts := by
  unfold execute_args
  rw [h]

/-- C2 (amended): for every argument vector, whatever the option parser: when the
parser accepts it and leaves no query, `execute` writes the missing-query error and
returns 1 with no other event, so no connection is obtained and the transport is not
called; when the parser throws, that exception leaves `execute` with no event at all;
and when the parser leaves a query, empty or not, and the transport is reached, the
initial request carries that text in its `query` field. -/
theorem execute_args_rejects_absent_query {F : Type} (B : format_library F)
    (cli : transport) (env : environment) (parse : option_reader) (args : List String) :
    (∀ opts, parse args = .ok opts → opts.query = none →
      execute_args B cli env parse args =
        ⟨[.cerr "Error: Missing general query.\n"], .ok 1⟩) ∧
    (∀ e, parse args = .error e → execute_args B cli env parse args = ⟨[], .error e⟩) ∧
    (∀ opts query, parse args = .ok opts → opts.query = some query →
      0 ≤ env.getRodsEnv → env.connect = .ok () →
      ∃ (m : List (String × Json)) (rest : List Event),
        (execute_args B cli env parse args).events =
          .get_connection :: .invoke (.object m) "query" :: rest ∧
        lookup "query" m = some (.string query)) := by
  refine ⟨?_, ?_, ?_⟩
  · intro opts hp hq
    rw [execute_args_of_parsed B cli env parse args opts hp]
    exact execute_of_missing_query B cli env opts hq
  · intro e hp
    unfold execute_args
    rw [hp]
  · intro opts query hp hq henv hconn
    rw [execute_args_of_parsed B cli env parse args opts hp]
    obtain ⟨m, hm, h1, _⟩ :=
      initial_request_fields opts.progress_flag query opts.limit opts.offset opts.page_size
    obtain ⟨rest, hrest⟩ := execute_events_of_query B cli env opts query _ hq henv hconn hm
    exact ⟨m, rest, hrest, h1⟩

theorem execute_args_rejects_absent_query_witness :
    execute_args sample_format (single_round (.object []) false) ⟨0, .ok ()⟩ sample_reader
        ["--limit", "-3"] =
      ⟨[.cerr "Error: Missing general query.\n"], .ok 1⟩ ∧
    execute_args sample_format (single_round (.object []) false) ⟨0, .ok ()⟩ sample_reader
        ["--bogus"] =
      ⟨[], .error (.other "boost::program_options: option rejected")⟩ ∧
    ∃ (m : List (String × Json)) (rest : List Event),
      (execute_args sample_format (single_round (.object []) false) ⟨0, .ok ()⟩
        sample_reader [""]).events =
        .get_connection :: .invoke (.object m) "query" :: rest ∧
      lookup "query" m = some (.string "") :=
  ⟨(execute_args_rejects_absent_query sample_format (single_round (.object []) false)
      ⟨0, .ok ()⟩ sample_reader ["--limit", "-3"]).1 ⟨none, "", -3, 0, 0, false⟩ rfl rfl,
    (execute_args_rejects_absent_query sample_format (single_round (.object []) false)
      ⟨0, .ok ()⟩ sample_reader ["--bogus"]).2.1
      (.other "boost::program_options: option rejected") rfl,
    (execute_args_rejects_absent_query sample_format (single_round (.object []) false)
      ⟨0, .ok ()⟩ sample_reader [""]).2.2 ⟨some "", "", 0, 0, 0, false⟩ "" rfl rfl
      (by decide) rfl⟩

/-- C7: whenever the transport returns a final response, `execute` returns 0, whatever
the response holds (a non-empty `errors` included) and whatever the cancellation flag
is; and `execute` returns 1 exactly when the query is absent or the environment cannot
be loaded. -/
theorem execute_exit_code {F : Type} (B : format_library F) (cli : transport)
    (env : environment) (opts : parsed_options) :
    (∀ query req rep, opts.query = some query → 0 ≤ env.getRodsEnv →
      env.connect = .ok () →
      initial_request opts.progress_flag query opts.limit opts.offset opts.page_size =
        .ok req →
      (cli (progress_handler opts.progress_flag) (response_handler B opts.format) req
        "query").rep = .ok rep →
      (execute B cli env opts).exit = .ok 0) ∧
    ((execute B cli env opts).exit = .ok 1 ↔ opts.query = none ∨ env.getRodsEnv < 0) := by
  constructor
  · intro query req rep hq henv hconn hreq hrep
    rw [execute_of_transport_ok B cli env opts query req rep hq henv hconn hreq hrep]
  · cases hq : opts.query with
    | none => simp [execute_of_missing_query B cli env opts hq]
    | some query =>
      by_cases henv : env.getRodsEnv < 0
      · simp [execute_of_bad_environment B cli env opts query hq henv, henv]
      · have henv' : 0 ≤ env.getRodsEnv := not_lt.mp henv
        cases hconn : env.connect with
        | error e =>
          simp [execute_of_connect_error B cli env opts query e hq henv' hconn, henv]
        | ok u =>
          obtain ⟨m, hm, _⟩ :=
            initial_request_fields opts.progress_flag query opts.limit opts.offset
              opts.page_size
          cases hrep : (cli (progress_handler opts.progress_flag)
              (response_handler B opts.format) (.object m) "query").rep with
          | error e =>
            simp [execute_of_transport_error B cli env opts query _ e hq henv' hconn hm hrep,
              henv]
          | ok rep =>
            simp [execute_of_transport_ok B cli env opts query _ rep hq henv' hconn hm hrep,
              henv]

theorem execute_exit_code_witness :
    (execute sample_format
        (single_round (.object [("errors", .array [.string "boom"])]) true) ⟨0, .ok ()⟩
        ⟨some "select COLL_NAME", "", 0, 0, 0, false⟩).exit = .ok 0 ∧
    (execute sample_format (single_round (.object []) false) ⟨-1, .ok ()⟩
        ⟨some "select COLL_NAME", "", 0, 0, 0, false⟩).exit = .ok 1 :=
  ⟨(execute_exit_code sample_format
      (single_round (.object [("errors", .array [.string "boom"])]) true) ⟨0, .ok ()⟩
      ⟨some "select COLL_NAME", "", 0, 0, 0, false⟩).1 "select COLL_NAME"
      (.object [("progress", .boolean false), ("query", .string "select COLL_NAME")])
      (.object [("errors", .array [.string "boom"])]) rfl (by decide) rfl rfl rfl,
    (execute_exit_code sample_format (single_round (.object []) false) ⟨-1, .ok ()⟩
      ⟨some "select COLL_NAME", "", 0, 0, 0, false⟩).2.mpr (Or.inr (by decide))⟩

/-- C8: when the transport has returned the final response `rep`, what `execute` writes
afterwards is the notice "Operation Cancelled." if the cancellation flag is set and
nothing otherwise, followed by the entries of `rep`'s `errors` field in order, each
written as JSON and followed by a newline (no entry when the field is absent; the
elements when it is an array). The notice is among the writes exactly when the flag is
set; the error lines depend on `rep` only and the notice on the flag only. -/
theorem execute_post_loop_report {F : Type} (B : format_library F) (cli : transport)
    (env : environment) (opts : parsed_options) (query : String) (req rep : Json)
    (hq : opts.query = some query) (henv : 0 ≤ env.getRodsEnv)
    (hconn : env.connect = .ok ())
    (hreq : initial_request opts.progress_flag query opts.limit opts.offset opts.page_size =
      .ok req)
    (hrep : (cli (progress_handler opts.progress_flag) (response_handler B opts.format) req
      "query").rep = .ok rep) :
    ∃ post : List Out,
      (execute B cli env opts).events =
        [.get_connection, .invoke req "query"] ++
          (cli (progress_handler opts.progress_flag) (response_handler B opts.format) req
            "query").events ++ post.map Event.cout ∧
      post =
        (if (cli (progress_handler opts.progress_flag) (response_handler B opts.format) req
              "query").exit_flag
          then [Out.text "Operation Cancelled.\n"] else []) ++
          (error_entries rep).flatMap (fun e => [Out.dump (-1) e, Out.text "\n"]) ∧
      (Out.text "Operation Cancelled.\n" ∈ post ↔
        (cli (progress_handler opts.progress_flag) (response_handler B opts.format) req
          "query").exit_flag = true) ∧
      (rep.contains "errors" = false → error_entries rep = []) ∧
      (∀ m es, rep = .object m → lookup "errors" m = some (.array es) →
        error_entries rep = es) := by
  refine ⟨_, ?_, rfl, ?_, ?_, ?_⟩
  · rw [execute_of_transport_ok B cli env opts query req rep hq henv hconn hreq hrep]
  · have hne : ("Operation Cancelled.\n" : String) ≠ "\n" := by decide
    cases (cli (progress_handler opts.progress_flag) (response_handler B opts.format) req
        "query").exit_flag with
    | true => simp
    | false => simp [List.mem_flatMap, hne]
  · intro hc
    cases rep with
    | object m =>
      cases h : lookup "errors" m with
      | none => simp [error_entries, h]
      | some v => simp [Json.contains, h] at hc
    | _ => simp [error_entries]
  · intro m es hm hl
    subst hm
    simp [error_entries, hl, Json.items]

theorem execute_post_loop_report_witness :
    ∃ post : List Out,
      (execute sample_format
          (single_round (.object [("errors", .array []),
            ("results", .array [.array [.string "/a", .string "f1"]])]) false)
          ⟨0, .ok ()⟩ ⟨some "select COLL_NAME, DATA_NAME", "", 0, 0, 0, false⟩).events =
        [.get_connection,
          .invoke (.object [("progress", .boolean false),
            ("query", .string "select COLL_NAME, DATA_NAME")]) "query"] ++
          [.cout (.dump 4 (.array [.array [.string "/a", .string "f1"]])),
            .cout (.text "\n")] ++ post.map Event.cout ∧
      post = [] := by
  obtain ⟨post, h1, h2, _⟩ :=
    execute_post_loop_report sample_format
      (single_round (.object [("errors", .array []),
        ("results", .array [.array [.string "/a", .string "f1"]])]) false)
      ⟨0, .ok ()⟩ ⟨some "select COLL_NAME, DATA_NAME", "", 0, 0, 0, false⟩
      "select COLL_NAME, DATA_NAME"
      (.object [("progress", .boolean false),
        ("query", .string "select COLL_NAME, DATA_NAME")])
      (.object [("errors", .array []),
        ("results", .array [.array [.string "/a", .string "f1"]])])
      rfl (by decide) rfl rfl rfl
  exact ⟨post, h1, h2⟩

end irods.cli
